import Mathlib

/-!
Verification of the batch scoring pipeline of the `aiscore` repository.

The development shallowly embeds the pipeline's code in Lean:

* JavaScript numbers are modelled as exact rationals (`ℚ`) where the code
  performs only field arithmetic and rounding, and as reals (`ℝ`) where the
  code calls `Math.log10`; `NaN` results are modelled by `Option`.
* Strings are Lean `String`s; JS truthiness of a string is `s ≠ ""`.
* The remote AI call (`generateContent` + response-text extraction +
  `JSON.parse`) is abstracted as a stream of attempt outcomes
  (`ℕ → Except String AIAnalysisResult`): each invocation either returns a
  parsed result or throws an error carrying a message.
* The orchestrator loop (`handleExcelFile`) is embedded as a structural
  recursion over the row list, collecting the result records, the emitted
  progress percentages and the per-row "AI invoked" flags.
-/

/-- Substring test on character lists: JS `s.includes(pat)` restricted to the
tail `s`.  An empty pattern is contained in every string. -/
def charsContain : List Char → List Char → Bool
  | s, pat =>
    if pat.isPrefixOf s then true
    else
      match s with
      | [] => false
      | _ :: t => charsContain t pat

/-- JS `s.includes(pat)` on strings. -/
def strContains (s pat : String) : Bool :=
  charsContain s.data pat.data

/-- Classification of a thrown error message as a rate-limit failure, from
`geminiService.ts` line 65: the message contains `"429"` or
`"RESOURCE_EXHAUSTED"`. -/
def isRateLimitMsg (msg : String) : Bool :=
  strContains msg "429" || strContains msg "RESOURCE_EXHAUSTED"

/-- The structured result returned by the AI scoring endpoint
(`types.ts`): three numeric sub-scores and a free-text comment. -/
structure AIAnalysisResult where
  km_score : ℝ
  acquisition_score : ℝ
  audience_precision_score : ℝ
  comment : String

/-- The retry loop of `analyzeWithGemini` (`geminiService.ts` lines 37-75).
`attempts n` is the outcome of the `n`-th invocation of the remote call
(result, or thrown error message).  The loop state is the attempt index, the
remaining retry budget (`retries`, initially 3), the current backoff delay in
ms (`backoffMs`, initially 2000, doubled after each retry) and the cumulative
delay waited so far.  On a caught error that is classified as rate-limiting
while retries remain, the loop sleeps `backoffMs` and retries; any other
error is rethrown at once; with the budget exhausted the last error is
rethrown.  The code's trailing `throw new Error("重试耗尽")` is unreachable
because every iteration returns or throws.  The function returns the final
outcome together with the total milliseconds spent in backoff sleeps. -/
def retryLoop (attempts : ℕ → Except String AIAnalysisResult) :
    ℕ → ℕ → ℕ → ℕ → Except String AIAnalysisResult × ℕ
  | idx, 0, _, waited =>
    match attempts idx with
    | .ok r => (.ok r, waited)
    | .error msg => (.error msg, waited)
  | idx, retries + 1, backoffMs, waited =>
    match attempts idx with
    | .ok r => (.ok r, waited)
    | .error msg =>
      if isRateLimitMsg msg then
        retryLoop attempts (idx + 1) retries (backoffMs * 2) (waited + backoffMs)
      else
        (.error msg, waited)

/-- `analyzeWithGemini` (`geminiService.ts`): after the API-key presence
check (a missing, empty or literal `"undefined"` key throws immediately,
before any remote attempt), the call runs the retry loop with a budget of 3
retries and an initial backoff of 2000 ms. -/
def analyzeWithGemini (apiKey : String)
    (attempts : ℕ → Except String AIAnalysisResult) :
    Except String AIAnalysisResult × ℕ :=
  if apiKey = "" || apiKey = "undefined" then
    (.error "API_KEY 缺失！请确保已在 Netlify 环境变量中设置 API_KEY。", 0)
  else
    retryLoop attempts 0 3 2000 0

example : isRateLimitMsg "got 429 too many requests" = true := by decide
example : isRateLimitMsg "RESOURCE_EXHAUSTED" = true := by decide
example : isRateLimitMsg "schema mismatch" = false := by decide

/-- Numeric value of a list of ASCII decimal digit characters, most
significant first. -/
def digitsVal (ds : List Char) : ℕ :=
  ds.foldl (fun a c => 10 * a + (c.toNat - 48)) 0

/-- Optional sign followed by mandatory digits, the exponent payload of a JS
float literal; `none` when no digit follows. -/
def parseSignedDigits (cs : List Char) : Option ℤ :=
  match cs with
  | '+' :: rest =>
    if (rest.takeWhile Char.isDigit).isEmpty then none
    else some (digitsVal (rest.takeWhile Char.isDigit) : ℤ)
  | '-' :: rest =>
    if (rest.takeWhile Char.isDigit).isEmpty then none
    else some (-(digitsVal (rest.takeWhile Char.isDigit) : ℤ))
  | _ =>
    if (cs.takeWhile Char.isDigit).isEmpty then none
    else some (digitsVal (cs.takeWhile Char.isDigit) : ℤ)

/-- Exponent part of a JS float literal: `e`/`E` with signed digits; a
missing or malformed exponent contributes `0`, as JS `parseFloat` ignores a
dangling `e`. -/
def parseExpPart (cs : List Char) : ℤ :=
  match cs with
  | 'e' :: rest => (parseSignedDigits rest).getD 0
  | 'E' :: rest => (parseSignedDigits rest).getD 0
  | _ => 0

/-- Mantissa of a JS float literal: `digits [. digits]` with at least one
digit overall.  Returns the combined digit value, the number of fractional
digits, and the unconsumed characters, so that the mantissa denotes
`value / 10 ^ fracLen`. -/
def parseMantissa (cs : List Char) : Option (ℕ × ℕ × List Char) :=
  let ip := cs.takeWhile Char.isDigit
  let rest1 := cs.dropWhile Char.isDigit
  match rest1 with
  | '.' :: rest2 =>
    let fp := rest2.takeWhile Char.isDigit
    let rest3 := rest2.dropWhile Char.isDigit
    if ip.isEmpty && fp.isEmpty then none
    else some (digitsVal (ip ++ fp), fp.length, rest3)
  | _ => if ip.isEmpty then none else some (digitsVal ip, 0, rest1)

/-- Leading sign of a JS float literal, as an integer factor. -/
def parseSign (cs : List Char) : ℤ × List Char :=
  match cs with
  | '-' :: rest => (-1, rest)
  | '+' :: rest => (1, rest)
  | _ => (1, cs)

/-- JS `parseFloat`, in an exact scaled-integer representation: skip leading
whitespace, optional sign, mantissa with at least one digit, optional
exponent; the longest valid prefix is parsed and trailing garbage is
ignored.  A result `some (m, e)` denotes the value `m * 10 ^ e`; `none`
models the `NaN` result. -/
def jsParseFloatRep (s : String) : Option (ℤ × ℤ) :=
  let cs := s.data.dropWhile Char.isWhitespace
  let sc := parseSign cs
  match parseMantissa sc.2 with
  | none => none
  | some mr => some (sc.1 * (mr.1 : ℤ), parseExpPart mr.2.2 - (mr.2.1 : ℤ))

/-- Rational value denoted by a scaled-integer float representation. -/
def ratOfRep (p : ℤ × ℤ) : ℚ :=
  (p.1 : ℚ) * (10 : ℚ) ^ p.2

/-- JS `parseFloat` as a rational value; `none` models `NaN`. -/
def jsParseFloat (s : String) : Option ℚ :=
  (jsParseFloatRep s).map ratOfRep

/-- The `replace(/[kK]/g, '000')` step of `cleanNum` (part_000 line 87): each
`k`/`K` character is replaced by the three-character string `000`. -/
def expandK (cs : List Char) : List Char :=
  cs.flatMap (fun c => if c = 'k' || c = 'K' then ['0', '0', '0'] else [c])

/-- The `replace(/[^\d\.]/g, '')` step of `cleanNum`: every character other
than an ASCII digit or a dot is removed. -/
def stripNonNumeric (cs : List Char) : List Char :=
  cs.filter (fun c => c.isDigit || c = '.')

/-- The string branch of `cleanNum` inside `calculateVolumeQuality`
(part_000 lines 85-91): expand `k`/`K` to `000`, strip non-digit non-dot
characters, `parseFloat`, and coerce a `NaN` (or parsed `0`) to `0` via
`|| 0`. -/
def cleanNum (s : String) : ℚ :=
  (jsParseFloat (String.mk (stripNonNumeric (expandK s.data)))).getD 0

example : jsParseFloatRep (String.mk (stripNonNumeric (expandK "2.5k".data)))
    = some (25000, -4) := by decide
example : cleanNum "2.5k" = 5 / 2 := by
  have h : jsParseFloatRep (String.mk (stripNonNumeric (expandK "2.5k".data)))
      = some (25000, -4) := by decide
  simp [cleanNum, jsParseFloat, h, ratOfRep]
  norm_num
example : cleanNum "2k" = 2000 := by
  have h : jsParseFloatRep (String.mk (stripNonNumeric (expandK "2k".data)))
      = some (2000, 0) := by decide
  simp [cleanNum, jsParseFloat, h, ratOfRep]
example : cleanNum "1,234" = 1234 := by
  have h : jsParseFloatRep (String.mk (stripNonNumeric (expandK "1,234".data)))
      = some (1234, 0) := by decide
  simp [cleanNum, jsParseFloat, h, ratOfRep]
example : cleanNum "abc" = 0 := by
  have h : jsParseFloatRep (String.mk (stripNonNumeric (expandK "abc".data)))
      = none := by decide
  simp [cleanNum, jsParseFloat, h]

/-- The three comma-separated tier pattern lists from the sidebar
configuration (`types.ts`). -/
structure Tiers where
  tier1 : String
  tier2 : String
  tier3 : String

/-- ASCII lowercasing of a character sequence, modelling JS `toLowerCase`
on the names and patterns this pipeline handles. -/
def toLowerChars (cs : List Char) : List Char :=
  cs.map Char.toLower

/-- JS `trim`: drop whitespace from both ends of a character sequence. -/
def trimChars (cs : List Char) : List Char :=
  ((cs.dropWhile Char.isWhitespace).reverse.dropWhile Char.isWhitespace).reverse

/-- JS `split(/[,，]/)`: cut a character sequence at every ASCII or
full-width comma, keeping empty pieces. -/
def splitCommas : List Char → List (List Char)
  | [] => [[]]
  | c :: rest =>
    let r := splitCommas rest
    if c = ',' || c = '，' then [] :: r
    else
      match r with
      | h :: t => (c :: h) :: t
      | [] => [[c]]

/-- Tier list parsing from `getMediaTierScore` (part_000 line 102): split on
ASCII or full-width comma, trim, lowercase, and drop empty entries. -/
def parseTierList (t : String) : List String :=
  ((splitCommas t.data).map (fun x => String.mk (toLowerChars (trimChars x)))).filter
    (fun x => x ≠ "")

/-- `getMediaTierScore` (part_000 lines 99-107): an empty (JS-falsy) media
name scores 3; otherwise the lowercased, trimmed name is tested for
substring containment against tier 1, then tier 2, then tier 3, scoring
10 / 8 / 5 on the first match, else 3. -/
def getMediaTierScore (tiers : Tiers) (mediaName : String) : ℕ :=
  if mediaName = "" then 3
  else
    let mName := String.mk (trimChars (toLowerChars mediaName.data))
    if (parseTierList tiers.tier1).any (fun m => strContains mName m) then 10
    else if (parseTierList tiers.tier2).any (fun m => strContains mName m) then 8
    else if (parseTierList tiers.tier3).any (fun m => strContains mName m) then 5
    else 3

/-- Modelled from the words of the specification (section 4.1 Media Tier
Score), for comparison with `getMediaTierScore`: normalize the name (trim,
lowercase), test membership by substring containment against the parsed
tier-1 list first, then tier-2, then tier-3, returning 10 / 8 / 5 on first
match, else 3.  The spec states separately that an empty or missing media
name yields 3; here that is a consequence of nonempty patterns never being
substrings of the empty normalized name. -/
def mediaTierScoreSpec (tiers : Tiers) (mediaName : String) : ℕ :=
  let nm := String.mk (trimChars (toLowerChars mediaName.data))
  if (parseTierList tiers.tier1).any (fun p => strContains nm p) then 10
  else if (parseTierList tiers.tier2).any (fun p => strContains nm p) then 8
  else if (parseTierList tiers.tier3).any (fun p => strContains nm p) then 5
  else 3

example : getMediaTierScore ⟨"人民日报,新华社", "丁香园", "搜狐"⟩ "新华社官网" = 10 := by decide
example : getMediaTierScore ⟨"foo", "", "foo,bar"⟩ "xfooy" = 10 := by decide
example : getMediaTierScore ⟨"foo", "", "bar"⟩ "" = 3 := by decide

/-- The numeric core of `calculateVolumeQuality` (part_000 lines 92-96), on
already-coerced inputs: `min(10, Math.round(log10(v + i*5 + 10) * 1.5 * 10) / 10)`. -/
noncomputable def volumeQualityNum (v i : ℝ) : ℝ :=
  min 10 ((round (Real.logb 10 (v + i * 5 + 10) * 1.5 * 10) : ℝ) / 10)

/-- `calculateVolumeQuality` (part_000 lines 83-97): coerce the views cell
through `cleanNum` and combine with the already-numeric interaction sum.
The `try`/`catch` fallback of the source never fires in this model because
every step is total. -/
noncomputable def calculateVolumeQuality (views : String) (interactions : ℚ) : ℝ :=
  volumeQualityNum ((cleanNum views : ℚ) : ℝ) ((interactions : ℚ) : ℝ)

/-- JS `toFixed(2)` on the non-negative scores of this pipeline, modelled as
the rational value the 2-decimal string denotes. -/
noncomputable def toFixed2 (x : ℝ) : ℝ :=
  (round (x * 100) : ℝ) / 100

/-- One row of the batch result table (`types.ts` `BatchResult`).  Field
names map to the source's Chinese column keys: `totalScore` 项目总分,
`trueDemand` 真需求, `acquisition` 获客效能, `volume` 声量, `kmScore`
核心信息匹配, `audPrecision` 受众精准度, `mediaTier` 媒体分级,
`commQuality` 传播质量, `comment` 评价.  The three composite fields hold the
value denoted by their `toFixed(2)` string. -/
structure BatchResultRec where
  title : String
  mediaName : String
  totalScore : ℝ
  trueDemand : ℝ
  acquisition : ℝ
  volume : ℝ
  kmScore : ℝ
  audPrecision : ℝ
  mediaTier : ℝ
  commQuality : ℝ
  comment : String

/-- The score composition and record construction of `handleExcelFile`
(part_000 lines 165 and 182-197): `volTotal = 0.6*volQuality + 0.4*tierScore`,
`trueDemand = 0.6*km + 0.4*aud`, `totalScore = 0.5*trueDemand + 0.2*acq +
0.3*volTotal`; the three composites are stored `toFixed(2)`-formatted, the
sub-scores raw. -/
noncomputable def composeRecord (title mediaName : String) (volQuality tierScore : ℝ)
    (aiRes : AIAnalysisResult) : BatchResultRec :=
  let volTotal := 0.6 * volQuality + 0.4 * tierScore
  let trueDemand := 0.6 * aiRes.km_score + 0.4 * aiRes.audience_precision_score
  let totalScore := 0.5 * trueDemand + 0.2 * aiRes.acquisition_score + 0.3 * volTotal
  { title := title
    mediaName := mediaName
    totalScore := toFixed2 totalScore
    trueDemand := toFixed2 trueDemand
    acquisition := aiRes.acquisition_score
    volume := toFixed2 volTotal
    kmScore := aiRes.km_score
    audPrecision := aiRes.audience_precision_score
    mediaTier := tierScore
    commQuality := volQuality
    comment := aiRes.comment }

/-- One spreadsheet row as produced by `sheet_to_json`, restricted to the
column aliases `handleExcelFile` reads (part_000 lines 157-161).  A cell is
`none` when the column is absent; cell values are modelled as their string
form (a numeric cell appears as its decimal string). -/
structure InputRow where
  mediaNameCol : Option String := none  -- 媒体名称
  mediaCol : Option String := none      -- 媒体
  titleCol : Option String := none      -- 标题
  titleEnCol : Option String := none    -- Title
  contentCol : Option String := none    -- 正文
  contentEnCol : Option String := none  -- Content
  viewsCol : Option String := none      -- 浏览量
  pvCol : Option String := none         -- PV
  likesCol : Option String := none      -- 点赞量
  sharesCol : Option String := none     -- 转发量
  commentsCol : Option String := none   -- 评论量
  urlCol : Option String := none        -- URL
  linkCnCol : Option String := none     -- 链接
  linkCol : Option String := none       -- Link

/-- JS `a || b` for an optional cell against a string default: an absent or
empty (falsy) cell falls through to the default. -/
def cellOr (c : Option String) (dflt : String) : String :=
  match c with
  | some s => if s = "" then dflt else s
  | none => dflt

/-- JS `a || b` on two strings: the first operand unless it is empty. -/
def strOr (a b : String) : String :=
  if a = "" then b else a

/-- Media name extraction (part_000 line 157):
`row['媒体名称'] || row['媒体'] || "未知"`. -/
def resolveMediaName (row : InputRow) : String :=
  cellOr row.mediaNameCol (cellOr row.mediaCol "未知")

/-- Title extraction (part_000 line 158):
`row['标题'] || row['Title'] || row['正文']?.substring(0, 20) || "无标题"`. -/
def resolveTitle (row : InputRow) : String :=
  cellOr row.titleCol
    (cellOr row.titleEnCol
      (cellOr (row.contentCol.map (fun s => s.take 20)) "无标题"))

/-- Views extraction (part_000 line 159): `row['浏览量'] || row['PV'] || 0`;
the numeric default `0` is modelled as the empty string, which `cleanNum`
also coerces to `0`. -/
def resolveViews (row : InputRow) : String :=
  cellOr row.viewsCol (cellOr row.pvCol "")

/-- Interaction sum (part_000 line 160):
`(parseFloat(row['点赞量']) || 0) + (parseFloat(row['转发量']) || 0) +
(parseFloat(row['评论量']) || 0)`; `parseFloat` of an absent cell is `NaN`,
coerced to `0`. -/
def resolveInteractions (row : InputRow) : ℚ :=
  (row.likesCol.bind jsParseFloat).getD 0 + (row.sharesCol.bind jsParseFloat).getD 0
    + (row.commentsCol.bind jsParseFloat).getD 0

/-- URL extraction (part_000 line 161):
`row['URL'] || row['链接'] || row['Link'] || ""`. -/
def resolveUrl (row : InputRow) : String :=
  cellOr row.urlCol (cellOr row.linkCnCol (cellOr row.linkCol ""))

/-- Content resolution (part_000 lines 168-173): body text in priority order
`row['正文'] || row['Content'] || row['标题'] || title || ""`, then, only
when that is empty and the row has an `http`-prefixed URL, a single
best-effort fetch (`fetchUrlContent`, modelled by the `fetch` oracle with
`none` for a failed or non-2xx response) whose nonempty result replaces the
content. -/
def resolveContent (fetch : String → Option String) (row : InputRow) : String :=
  let title := resolveTitle row
  let url := resolveUrl row
  let content0 :=
    cellOr row.contentCol (cellOr row.contentEnCol (cellOr row.titleCol (strOr title "")))
  if content0 = "" && url != "" && url.startsWith "http" then
    match fetch url with
    | some s => strOr s content0
    | none => content0
  else content0

/-- The floor placeholder result a row starts from (part_000 line 167):
all three AI sub-scores 1 and the "pending evaluation" comment. -/
def floorResult : AIAnalysisResult :=
  { km_score := 1, acquisition_score := 1, audience_precision_score := 1
    comment := "待评估" }

/-- The skip-vs-score decision of `handleExcelFile` (part_000 lines
167-180): when resolved content or media name is JS-truthy (nonempty), the
AI is invoked — a successful outcome replaces the floor result wholesale,
a thrown error keeps the floor sub-scores and overwrites only the comment
with `AI分析失败: ` plus the error message; when both are empty the call is
skipped and the floor result stands.  The second component records whether
the remote call was invoked. -/
def scoreStep (content mediaName : String) (ai : Except String AIAnalysisResult) :
    AIAnalysisResult × Bool :=
  if content != "" || mediaName != "" then
    match ai with
    | .ok r => (r, true)
    | .error msg => ({ floorResult with comment := "AI分析失败: " ++ msg }, true)
  else (floorResult, false)

/-- Full processing of one row of `handleExcelFile` (part_000 lines
156-197): extraction, deterministic metrics, skip-vs-score decision, and
score composition.  `ai` is the outcome of this row's `analyzeWithGemini`
call (after its internal retries); the 800 ms inter-row pacing delay is a
timing effect with no bearing on the produced data and is not modelled.
Returns the result record and whether the AI was invoked. -/
noncomputable def processRow (tiers : Tiers) (fetch : String → Option String)
    (ai : Except String AIAnalysisResult) (row : InputRow) : BatchResultRec × Bool :=
  let mediaName := resolveMediaName row
  let title := resolveTitle row
  let volQuality := calculateVolumeQuality (resolveViews row) (resolveInteractions row)
  let tierScore := (getMediaTierScore tiers mediaName : ℝ)
  let content := resolveContent fetch row
  let st := scoreStep content mediaName ai
  (composeRecord title mediaName volQuality tierScore st.1, st.2)

/-- Progress percentage emitted after finishing a row (part_000 line 198):
`Math.round(((i + 1) / totalRows) * 100)`. -/
def progressPct (completed total : ℕ) : ℤ :=
  round (((completed : ℚ) / (total : ℚ)) * 100)

/-- Observable outcome of one batch run: the result records, the emitted
progress percentages (one per row, in order) and the per-row "AI was
invoked" flags. -/
structure BatchRun where
  results : List BatchResultRec
  progressLog : List ℤ
  invoked : List Bool

/-- The sequential row loop of `handleExcelFile` (part_000 lines 155-199),
by recursion over the remaining rows with `i` the index of the next row and
`total` the batch size.  `ai j` is the outcome of the AI call for row `j`. -/
noncomputable def processAll (tiers : Tiers) (fetch : String → Option String)
    (ai : ℕ → Except String AIAnalysisResult) (total : ℕ) :
    ℕ → List InputRow → BatchRun
  | _, [] => ⟨[], [], []⟩
  | i, row :: rest =>
    let pr := processRow tiers fetch (ai i) row
    let r := processAll tiers fetch ai total (i + 1) rest
    ⟨pr.1 :: r.results, progressPct (i + 1) total :: r.progressLog, pr.2 :: r.invoked⟩

/-- A whole batch run of `handleExcelFile` on the extracted rows. -/
noncomputable def runBatch (tiers : Tiers) (fetch : String → Option String)
    (ai : ℕ → Except String AIAnalysisResult) (rows : List InputRow) : BatchRun :=
  processAll tiers fetch ai rows.length 0 rows

/-- Round is monotone on a linear ordered field with a floor, since it is
the floor of `x + 1/2`. -/
theorem roundMono {α : Type} [LinearOrderedField α] [FloorRing α] {x y : α}
    (h : x ≤ y) : round x ≤ round y := by
  rw [round_eq, round_eq]
  exact Int.floor_mono (by linarith)

/-- The failure comment written by the batch loop never equals the floor
placeholder comment: the two strings have different lengths. -/
theorem failureComment_ne_floor (msg : String) : ("AI分析失败: " ++ msg) ≠ "待评估" := by
  intro h
  have hl := congrArg String.length h
  rw [String.length_append] at hl
  have h8 : ("AI分析失败: " : String).length = 8 := by decide
  have h3 : ("待评估" : String).length = 3 := by decide
  omega

/-- C2: the AI scorer client, on a failure classified as rate-limiting
(message containing "429" or "RESOURCE_EXHAUSTED"), retries at most 3
additional times with delays of 2000 ms, 4000 ms and 8000 ms before the
successive attempts; a success after three consecutive rate-limit failures
has waited exactly 2000 + 4000 + 8000 = 14000 ms; a failure not classified
as rate-limiting is rethrown immediately with no retry and no waiting; and
after exhausting the 3 retries the last (fourth) rate-limit failure is
surfaced to the caller. -/
theorem retryPolicy_C2 (apiKey : String)
    (hk1 : apiKey ≠ "") (hk2 : apiKey ≠ "undefined")
    (a b c : ℕ → Except String AIAnalysisResult)
    (r : AIAnalysisResult) (m0 m1 m2 n0 p0 p1 p2 p3 : String)
    (ha0 : a 0 = .error m0) (ha1 : a 1 = .error m1) (ha2 : a 2 = .error m2)
    (ha3 : a 3 = .ok r)
    (hm0 : isRateLimitMsg m0 = true) (hm1 : isRateLimitMsg m1 = true)
    (hm2 : isRateLimitMsg m2 = true)
    (hb0 : b 0 = .error n0) (hn0 : isRateLimitMsg n0 = false)
    (hc0 : c 0 = .error p0) (hc1 : c 1 = .error p1) (hc2 : c 2 = .error p2)
    (hc3 : c 3 = .error p3)
    (hp0 : isRateLimitMsg p0 = true) (hp1 : isRateLimitMsg p1 = true)
    (hp2 : isRateLimitMsg p2 = true) (hp3 : isRateLimitMsg p3 = true) :
    analyzeWithGemini apiKey a = (.ok r, 14000) ∧
      14000 = 2000 + 4000 + 8000 ∧
      analyzeWithGemini apiKey b = (.error n0, 0) ∧
      analyzeWithGemini apiKey c = (.error p3, 14000) := by
  have hcond : (apiKey = "" || apiKey = "undefined") = false := by
    simp [hk1, hk2]
  refine ⟨?_, by norm_num, ?_, ?_⟩
  · simp only [analyzeWithGemini, hcond, Bool.false_eq_true, if_false]
    rw [retryLoop, ha0]
    simp only [hm0, if_true]
    rw [retryLoop, ha1]
    simp only [hm1, if_true]
    rw [retryLoop, ha2]
    simp only [hm2, if_true]
    rw [retryLoop, ha3]
  · simp only [analyzeWithGemini, hcond, Bool.false_eq_true, if_false]
    rw [retryLoop, hb0]
    simp [hn0]
  · simp only [analyzeWithGemini, hcond, Bool.false_eq_true, if_false]
    rw [retryLoop, hc0]
    simp only [hp0, if_true]
    rw [retryLoop, hc1]
    simp only [hp1, if_true]
    rw [retryLoop, hc2]
    simp only [hp2, if_true]
    rw [retryLoop, hc3]

/-- Witness for `retryPolicy_C2` at concrete attempt streams. -/
theorem retryPolicy_C2_witness :
    analyzeWithGemini "key"
        (fun n => if n < 3 then .error "429" else .ok ⟨8, 6, 7, "好"⟩)
      = (.ok ⟨8, 6, 7, "好"⟩, 14000) ∧
      14000 = 2000 + 4000 + 8000 ∧
      analyzeWithGemini "key" (fun _ => .error "parse error")
        = (.error "parse error", 0) ∧
      analyzeWithGemini "key" (fun _ => .error "RESOURCE_EXHAUSTED")
        = (.error "RESOURCE_EXHAUSTED", 14000) :=
  retryPolicy_C2 "key" (by decide) (by decide)
    (fun n => if n < 3 then .error "429" else .ok ⟨8, 6, 7, "好"⟩)
    (fun _ => .error "parse error") (fun _ => .error "RESOURCE_EXHAUSTED")
    ⟨8, 6, 7, "好"⟩ "429" "429" "429" "parse error"
    "RESOURCE_EXHAUSTED" "RESOURCE_EXHAUSTED" "RESOURCE_EXHAUSTED" "RESOURCE_EXHAUSTED"
    rfl rfl rfl rfl (by decide) (by decide) (by decide) rfl (by decide)
    rfl rfl rfl rfl (by decide) (by decide) (by decide) (by decide)

/-- C3: for a row whose resolved content and media name are both empty, the
remote AI call is skipped entirely (invoked flag `false`) and the row keeps
the floor result: all three sub-scores 1 and the 待评估 placeholder
comment. -/
theorem emptyRowFloor_C3 (content mediaName : String)
    (ai : Except String AIAnalysisResult)
    (hc : content = "") (hm : mediaName = "") :
    scoreStep content mediaName ai = (floorResult, false) ∧
      floorResult.km_score = 1 ∧ floorResult.acquisition_score = 1 ∧
      floorResult.audience_precision_score = 1 ∧ floorResult.comment = "待评估" := by
  subst hc hm
  exact ⟨by simp [scoreStep], rfl, rfl, rfl, rfl⟩

/-- Witness for `emptyRowFloor_C3` on a concrete AI outcome. -/
theorem emptyRowFloor_C3_witness :
    scoreStep "" "" (.ok ⟨9, 9, 9, "优"⟩) = (floorResult, false) ∧
      floorResult.km_score = 1 ∧ floorResult.acquisition_score = 1 ∧
      floorResult.audience_precision_score = 1 ∧ floorResult.comment = "待评估" :=
  emptyRowFloor_C3 "" "" (.ok ⟨9, 9, 9, "优"⟩) rfl rfl

/-- Every entry of a parsed tier list is nonempty, by the trailing filter. -/
theorem parseTierList_ne_empty {t x : String} (hx : x ∈ parseTierList t) :
    x ≠ "" := by
  simp only [parseTierList, List.mem_filter] at hx
  simpa using hx.2

/-- A nonempty pattern is never contained in the empty string. -/
theorem strContains_empty_false (p : String) (hp : p ≠ "") :
    strContains "" p = false := by
  have hd : p.data ≠ [] := by
    intro h0
    apply hp
    cases p with
    | mk data =>
      have h1 : data = [] := h0
      subst h1
      decide
  cases hpd : p.data with
  | nil => exact absurd hpd hd
  | cons a as =>
    have : ("" : String).data = [] := by decide
    simp [strContains, this, hpd, charsContain, List.isPrefixOf]

/-- C5: `getMediaTierScore` coincides with the spec's description
(tier-1 first, then tier-2, then tier-3, substring containment on the
normalized name, lists split on ASCII/full-width comma with empty entries
discarded); an empty media name scores 3; and a name matching both a
tier-1 and a tier-3 pattern scores 10, never 5. -/
theorem mediaTier_C5 :
    (∀ tiers name, getMediaTierScore tiers name = mediaTierScoreSpec tiers name) ∧
      (∀ tiers, getMediaTierScore tiers "" = 3) ∧
      getMediaTierScore ⟨"foo", "", "foo,bar"⟩ "xfooy" = 10 ∧
      getMediaTierScore ⟨"foo", "", "foo,bar"⟩ "xfooy" ≠ 5 := by
  have hempty : ∀ t : String, (parseTierList t).any (fun p => strContains "" p) = false := by
    intro t
    rw [List.any_eq_false]
    intro x hx
    simp [strContains_empty_false x (parseTierList_ne_empty hx)]
  refine ⟨?_, ?_, by decide, by decide⟩
  · intro tiers name
    by_cases hname : name = ""
    · subst hname
      have hnm : String.mk (trimChars (toLowerChars ("" : String).data)) = "" := by decide
      simp [getMediaTierScore, mediaTierScoreSpec, hnm, hempty]
    · simp [getMediaTierScore, mediaTierScoreSpec, hname]
  · intro tiers
    have hnm : String.mk (trimChars (toLowerChars ("" : String).data)) = "" := by decide
    simp [getMediaTierScore]

/-- C7 counterexample: the code's `cleanNum` parses `"2.5k"` as `2.5`, not
`2500`, because the textual `k → 000` replacement produces `"2.5000"`. -/
theorem cleanNum_C7_counterexample :
    cleanNum "2.5k" = 5 / 2 ∧ cleanNum "2.5k" ≠ 2500 := by
  have h : jsParseFloatRep (String.mk (stripNonNumeric (expandK "2.5k".data)))
      = some (25000, -4) := by decide
  constructor
  · simp [cleanNum, jsParseFloat, h, ratOfRep]
    norm_num
  · simp [cleanNum, jsParseFloat, h, ratOfRep]
    norm_num

/-- C7 (amended): `cleanNum` replaces each `k`/`K` with the digit string
`000` before stripping, so `"2k"` parses as `2000` but `"2.5k"` as `2.5`;
`"1,234"` parses as `1234` (non-digit, non-dot characters stripped); and an
unparsable string yields the value `0` rather than an error. -/
theorem cleanNum_C7_amended :
    cleanNum "2k" = 2000 ∧ cleanNum "2.5k" = 5 / 2 ∧
      cleanNum "1,234" = 1234 ∧ cleanNum "abc" = 0 := by
  have h1 : jsParseFloatRep (String.mk (stripNonNumeric (expandK "2k".data)))
      = some (2000, 0) := by decide
  have h2 : jsParseFloatRep (String.mk (stripNonNumeric (expandK "2.5k".data)))
      = some (25000, -4) := by decide
  have h3 : jsParseFloatRep (String.mk (stripNonNumeric (expandK "1,234".data)))
      = some (1234, 0) := by decide
  have h4 : jsParseFloatRep (String.mk (stripNonNumeric (expandK "abc".data)))
      = none := by decide
  refine ⟨?_, ?_, ?_, ?_⟩
  · simp [cleanNum, jsParseFloat, h1, ratOfRep]
  · simp [cleanNum, jsParseFloat, h2, ratOfRep]
    norm_num
  · simp [cleanNum, jsParseFloat, h3, ratOfRep]
  · simp [cleanNum, jsParseFloat, h4]

/-- The log argument of `volumeQualityNum` is at least 10 for non-negative
inputs. -/
theorem vqArg_ge_ten {v i : ℝ} (hv : 0 ≤ v) (hi : 0 ≤ i) :
    (10 : ℝ) ≤ v + i * 5 + 10 := by nlinarith

/-- The raw log-score of `volumeQualityNum` is non-negative for
non-negative inputs. -/
theorem vqRaw_nonneg {v i : ℝ} (hv : 0 ≤ v) (hi : 0 ≤ i) :
    0 ≤ Real.logb 10 (v + i * 5 + 10) * 1.5 * 10 := by
  have h1 : (1 : ℝ) ≤ v + i * 5 + 10 := by nlinarith
  have h2 : 0 ≤ Real.logb 10 (v + i * 5 + 10) := Real.logb_nonneg (by norm_num) h1
  nlinarith

/-- Monotonicity of `volumeQualityNum` in its log argument. -/
theorem vq_mono_arg {a b : ℝ} (ha : (10 : ℝ) ≤ a) (hab : a ≤ b) :
    min 10 ((round (Real.logb 10 a * 1.5 * 10) : ℝ) / 10)
      ≤ min 10 ((round (Real.logb 10 b * 1.5 * 10) : ℝ) / 10) := by
  have hpos : (0 : ℝ) < a := by linarith
  have hlog : Real.logb 10 a ≤ Real.logb 10 b :=
    Real.logb_le_logb_of_le (by norm_num) hpos hab
  have hraw : Real.logb 10 a * 1.5 * 10 ≤ Real.logb 10 b * 1.5 * 10 := by nlinarith
  have hr : (round (Real.logb 10 a * 1.5 * 10) : ℤ)
      ≤ round (Real.logb 10 b * 1.5 * 10) := roundMono hraw
  have hrc : ((round (Real.logb 10 a * 1.5 * 10) : ℤ) : ℝ)
      ≤ ((round (Real.logb 10 b * 1.5 * 10) : ℤ) : ℝ) := by exact_mod_cast hr
  exact min_le_min le_rfl (by linarith)

/-- C6: for all non-negative real views and interactions, the numeric core
of `calculateVolumeQuality` lies in `[0, 10]` and is monotonically
non-decreasing in each argument. -/
theorem volumeQuality_C6 (v i : ℝ) (hv : 0 ≤ v) (hi : 0 ≤ i) :
    0 ≤ volumeQualityNum v i ∧ volumeQualityNum v i ≤ 10 ∧
      (∀ v2, v ≤ v2 → volumeQualityNum v i ≤ volumeQualityNum v2 i) ∧
      (∀ i2, i ≤ i2 → volumeQualityNum v i ≤ volumeQualityNum v i2) := by
  refine ⟨?_, ?_, ?_, ?_⟩
  · have hraw := vqRaw_nonneg hv hi
    have h0 : (0 : ℤ) ≤ round (Real.logb 10 (v + i * 5 + 10) * 1.5 * 10) := by
      have := roundMono hraw
      simpa using this
    have h0c : (0 : ℝ) ≤ (round (Real.logb 10 (v + i * 5 + 10) * 1.5 * 10) : ℝ) := by
      exact_mod_cast h0
    exact le_min (by norm_num) (by linarith)
  · exact min_le_left _ _
  · intro v2 hv2
    exact vq_mono_arg (vqArg_ge_ten hv hi) (by linarith)
  · intro i2 hi2
    exact vq_mono_arg (vqArg_ge_ten hv hi) (by nlinarith)

/-- Witness for `volumeQuality_C6` at the origin. -/
theorem volumeQuality_C6_witness :
    0 ≤ volumeQualityNum 0 0 ∧ volumeQualityNum 0 0 ≤ 10 ∧
      (∀ v2, (0 : ℝ) ≤ v2 → volumeQualityNum 0 0 ≤ volumeQualityNum v2 0) ∧
      (∀ i2, (0 : ℝ) ≤ i2 → volumeQualityNum 0 0 ≤ volumeQualityNum 0 i2) :=
  volumeQuality_C6 0 0 le_rfl le_rfl

/-- Round of a real that equals an integer literal. -/
theorem round_eq_of_eq_intCast {x : ℝ} {n : ℤ} (h : x = (n : ℝ)) :
    round x = n := by rw [h, round_intCast]

/-- C1: for every row processed by the batch pipeline, the record's three
composite scores follow the fixed-weight formulas
`volume_total = 0.6*volume_quality + 0.4*tier_score`,
`true_demand = 0.6*km + 0.4*audience_precision` and
`total = 0.5*true_demand + 0.2*acquisition + 0.3*volume_total`, stored
`toFixed(2)`-formatted, while the underlying sub-scores are stored
unrounded; and on the concrete inputs `km=8, acq=6, aud=7, volQuality=5,
tier=10` the composer yields volume `7.0`, true demand `7.6` and total
`7.10`. -/
theorem composer_C1 (tiers : Tiers) (fetch : String → Option String)
    (ai : Except String AIAnalysisResult) (row : InputRow) :
    ((processRow tiers fetch ai row).1.volume =
        toFixed2 (0.6 * calculateVolumeQuality (resolveViews row) (resolveInteractions row)
          + 0.4 * (getMediaTierScore tiers (resolveMediaName row) : ℝ)) ∧
      (processRow tiers fetch ai row).1.trueDemand =
        toFixed2 (0.6 * (scoreStep (resolveContent fetch row) (resolveMediaName row) ai).1.km_score
          + 0.4 * (scoreStep (resolveContent fetch row) (resolveMediaName row) ai).1.audience_precision_score) ∧
      (processRow tiers fetch ai row).1.totalScore =
        toFixed2 (0.5 * (0.6 * (scoreStep (resolveContent fetch row) (resolveMediaName row) ai).1.km_score
            + 0.4 * (scoreStep (resolveContent fetch row) (resolveMediaName row) ai).1.audience_precision_score)
          + 0.2 * (scoreStep (resolveContent fetch row) (resolveMediaName row) ai).1.acquisition_score
          + 0.3 * (0.6 * calculateVolumeQuality (resolveViews row) (resolveInteractions row)
            + 0.4 * (getMediaTierScore tiers (resolveMediaName row) : ℝ))) ∧
      (processRow tiers fetch ai row).1.kmScore =
        (scoreStep (resolveContent fetch row) (resolveMediaName row) ai).1.km_score ∧
      (processRow tiers fetch ai row).1.acquisition =
        (scoreStep (resolveContent fetch row) (resolveMediaName row) ai).1.acquisition_score ∧
      (processRow tiers fetch ai row).1.audPrecision =
        (scoreStep (resolveContent fetch row) (resolveMediaName row) ai).1.audience_precision_score ∧
      (processRow tiers fetch ai row).1.commQuality =
        calculateVolumeQuality (resolveViews row) (resolveInteractions row) ∧
      (processRow tiers fetch ai row).1.mediaTier =
        (getMediaTierScore tiers (resolveMediaName row) : ℝ)) ∧
      (composeRecord "t" "m" 5 10 ⟨8, 6, 7, "c"⟩).volume = 7 ∧
      (composeRecord "t" "m" 5 10 ⟨8, 6, 7, "c"⟩).trueDemand = 7.6 ∧
      (composeRecord "t" "m" 5 10 ⟨8, 6, 7, "c"⟩).totalScore = 7.1 := by
  refine ⟨⟨rfl, rfl, rfl, rfl, rfl, rfl, rfl, rfl⟩, ?_, ?_, ?_⟩
  · show toFixed2 (0.6 * 5 + 0.4 * 10) = 7
    rw [toFixed2, round_eq_of_eq_intCast (n := 700) (by norm_num)]
    norm_num
  · show toFixed2 (0.6 * (8 : ℝ) + 0.4 * 7) = 7.6
    rw [toFixed2, round_eq_of_eq_intCast (n := 760) (by norm_num)]
    norm_num
  · show toFixed2 (0.5 * (0.6 * (8 : ℝ) + 0.4 * 7) + 0.2 * 6 + 0.3 * (0.6 * 5 + 0.4 * 10)) = 7.1
    rw [toFixed2, round_eq_of_eq_intCast (n := 710) (by norm_num)]
    norm_num

/-- The resolved media name is never empty: the extraction chain ends in the
constant `"未知"`. -/
theorem resolveMediaName_ne_empty (row : InputRow) : resolveMediaName row ≠ "" := by
  unfold resolveMediaName cellOr
  cases row.mediaNameCol with
  | none =>
    cases row.mediaCol with
    | none => decide
    | some s =>
      by_cases hs : s = "" <;> simp [hs]
  | some s =>
    cases row.mediaCol with
    | none =>
      by_cases hs : s = "" <;> simp [hs]
    | some s2 =>
      by_cases hs : s = "" <;> by_cases hs2 : s2 = "" <;> simp [hs, hs2]

/-- When the media name is nonempty the guard of the skip-vs-score branch
holds, so the AI call is made: a successful outcome is adopted wholesale
and a failure keeps the floor sub-scores with the failure comment. -/
theorem scoreStep_of_mediaName_ne (content mediaName : String)
    (hm : mediaName ≠ "") (ai : Except String AIAnalysisResult) :
    scoreStep content mediaName ai =
      match ai with
      | .ok r => (r, true)
      | .error msg => ({ floorResult with comment := "AI分析失败: " ++ msg }, true) := by
  have hcond : (content != "" || mediaName != "") = true := by
    simp [bne_iff_ne, hm]
  simp [scoreStep, hcond]

/-- The batch loop produces exactly one result record per input row. -/
theorem processAll_results_length (tiers : Tiers) (fetch : String → Option String)
    (ai : ℕ → Except String AIAnalysisResult) (total : ℕ) (rows : List InputRow)
    (i : ℕ) :
    (processAll tiers fetch ai total i rows).results.length = rows.length := by
  induction rows generalizing i with
  | nil => rfl
  | cons row rest ih => simp [processAll, ih]

/-- The `j`-th result record of the batch loop is the processing of the
`j`-th row with the AI outcome of index `i + j`. -/
theorem processAll_results_get? (tiers : Tiers) (fetch : String → Option String)
    (ai : ℕ → Except String AIAnalysisResult) (total : ℕ) (rows : List InputRow)
    (i j : ℕ) :
    (processAll tiers fetch ai total i rows).results.get? j =
      (rows.get? j).map (fun row => (processRow tiers fetch (ai (i + j)) row).1) := by
  induction rows generalizing i j with
  | nil => simp [processAll]
  | cons row rest ih =>
    cases j with
    | zero => simp [processAll]
    | succ j2 =>
      simp only [processAll, List.get?_cons_succ]
      rw [ih]
      have harith : i + 1 + j2 = i + (j2 + 1) := by omega
      rw [harith]

/-- The invoked flags of the batch loop, element by element. -/
theorem processAll_invoked_get? (tiers : Tiers) (fetch : String → Option String)
    (ai : ℕ → Except String AIAnalysisResult) (total : ℕ) (rows : List InputRow)
    (i j : ℕ) :
    (processAll tiers fetch ai total i rows).invoked.get? j =
      (rows.get? j).map (fun row => (processRow tiers fetch (ai (i + j)) row).2) := by
  induction rows generalizing i j with
  | nil => simp [processAll]
  | cons row rest ih =>
    cases j with
    | zero => simp [processAll]
    | succ j2 =>
      simp only [processAll, List.get?_cons_succ]
      rw [ih]
      have harith : i + 1 + j2 = i + (j2 + 1) := by omega
      rw [harith]

/-- The emitted progress values of the batch loop: one entry per row, the
`j`-th being `round(((i + j + 1) / total) * 100)`. -/
theorem processAll_progressLog (tiers : Tiers) (fetch : String → Option String)
    (ai : ℕ → Except String AIAnalysisResult) (total : ℕ) (rows : List InputRow)
    (i : ℕ) :
    (processAll tiers fetch ai total i rows).progressLog =
      (List.range rows.length).map (fun j => progressPct (i + j + 1) total) := by
  induction rows generalizing i with
  | nil => simp [processAll]
  | cons row rest ih =>
    simp only [processAll, List.length_cons, List.range_succ_eq_map, List.map_cons,
      List.map_map]
    congr 1
    rw [ih]
    apply List.map_congr_left
    intro j _
    simp only [Function.comp]
    congr 1
    omega

/-- The final progress emitted for a nonempty batch is 100%. -/
theorem progressPct_total (n : ℕ) (hn : n ≠ 0) : progressPct n n = 100 := by
  unfold progressPct
  have hq : ((n : ℚ) / (n : ℚ)) * 100 = 100 := by
    rw [div_self (by exact_mod_cast hn)]
    norm_num
  rw [hq]
  have : ((100 : ℤ) : ℚ) = 100 := by norm_num
  rw [← this, round_intCast]

/-- The last progress value emitted for a nonempty batch segment. -/
theorem processAll_progressLog_getLast (tiers : Tiers) (fetch : String → Option String)
    (ai : ℕ → Except String AIAnalysisResult) (total : ℕ) (rows : List InputRow)
    (i : ℕ) (hrows : rows ≠ []) :
    (processAll tiers fetch ai total i rows).progressLog.getLast? =
      some (progressPct (i + rows.length) total) := by
  rw [processAll_progressLog]
  obtain ⟨m, hm⟩ := Nat.exists_eq_succ_of_ne_zero
    (fun h => hrows (List.length_eq_zero.mp h))
  rw [hm, List.range_succ, List.map_append]
  simp only [List.map_cons, List.map_nil, List.getLast?_concat, Option.some.injEq]
  rfl

/-- A row whose AI call fails is recorded with the floor sub-scores and the
failure comment carrying the error message. -/
theorem processRow_error (tiers : Tiers) (fetch : String → Option String)
    (msg : String) (row : InputRow) :
    (processRow tiers fetch (.error msg) row).1.comment = "AI分析失败: " ++ msg ∧
      (processRow tiers fetch (.error msg) row).1.kmScore = 1 ∧
      (processRow tiers fetch (.error msg) row).1.acquisition = 1 ∧
      (processRow tiers fetch (.error msg) row).1.audPrecision = 1 := by
  have hms := scoreStep_of_mediaName_ne (resolveContent fetch row) (resolveMediaName row)
    (resolveMediaName_ne_empty row) (.error msg)
  simp only [processRow, hms]
  exact ⟨rfl, rfl, rfl, rfl⟩

/-- C4: when the AI scoring call for some row of a batch fails (a
non-rate-limit error, surfaced immediately by the client), the batch still
produces exactly one result record per input row, the failing row's comment
is the failure marker `AI分析失败: ` followed by the AI error message, and
the final reported progress is 100%. -/
theorem batchResilience_C4 (tiers : Tiers) (fetch : String → Option String)
    (ai : ℕ → Except String AIAnalysisResult) (rows : List InputRow)
    (i : ℕ) (msg : String) (hi : i < rows.length)
    (hfail : ai i = .error msg) (hnrl : isRateLimitMsg msg = false) :
    (runBatch tiers fetch ai rows).results.length = rows.length ∧
      ((runBatch tiers fetch ai rows).results.get? i).map BatchResultRec.comment
        = some ("AI分析失败: " ++ msg) ∧
      (runBatch tiers fetch ai rows).progressLog.getLast? = some 100 := by
  refine ⟨processAll_results_length _ _ _ _ _ _, ?_, ?_⟩
  · rw [runBatch, processAll_results_get?]
    obtain ⟨row, hrow⟩ : ∃ row, rows.get? i = some row := by
      rw [List.get?_eq_get hi]
      exact ⟨_, rfl⟩
    rw [hrow]
    simp only [Option.map_some', Option.some.injEq, Nat.zero_add, hfail]
    exact (processRow_error tiers fetch msg row).1
  · rw [runBatch, processAll_progressLog_getLast _ _ _ _ _ _
      (List.ne_nil_of_length_pos (by omega))]
    rw [Nat.zero_add, progressPct_total _ (by omega)]

/-- Witness for `batchResilience_C4`: a three-row batch whose second row's
AI call fails with a non-rate-limit error. -/
theorem batchResilience_C4_witness :
    (runBatch ⟨"", "", ""⟩ (fun _ => none)
        (fun j => if j = 1 then .error "boom" else .ok ⟨8, 6, 7, "好"⟩)
        [{}, {}, {}]).results.length = ([{}, {}, {}] : List InputRow).length ∧
      ((runBatch ⟨"", "", ""⟩ (fun _ => none)
          (fun j => if j = 1 then .error "boom" else .ok ⟨8, 6, 7, "好"⟩)
          [{}, {}, {}]).results.get? 1).map BatchResultRec.comment
        = some ("AI分析失败: " ++ "boom") ∧
      (runBatch ⟨"", "", ""⟩ (fun _ => none)
        (fun j => if j = 1 then .error "boom" else .ok ⟨8, 6, 7, "好"⟩)
        [{}, {}, {}]).progressLog.getLast? = some 100 :=
  batchResilience_C4 ⟨"", "", ""⟩ (fun _ => none)
    (fun j => if j = 1 then .error "boom" else .ok ⟨8, 6, 7, "好"⟩)
    [{}, {}, {}] 1 "boom" (by decide) rfl (by decide)

/-- The emitted progress percentage is monotone in the completed count. -/
theorem progressPct_mono {c d : ℕ} (n : ℕ) (h : c ≤ d) :
    progressPct c n ≤ progressPct d n := by
  apply roundMono
  rcases Nat.eq_zero_or_pos n with hn | hn
  · subst hn
    simp
  · have hn2 : (0 : ℚ) < (n : ℚ) := by exact_mod_cast hn
    have hcd : (c : ℚ) ≤ (d : ℚ) := by exact_mod_cast h
    have hdiv : (c : ℚ) / (n : ℚ) ≤ (d : ℚ) / (n : ℚ) :=
      (div_le_div_iff_of_pos_right hn2).mpr hcd
    nlinarith

/-- Before the last row of a batch of fewer than 200 rows, the emitted
progress percentage is still below 100. -/
theorem progressPct_lt_100 {c n : ℕ} (hcn : c < n) (hn : n < 200) :
    progressPct c n < 100 := by
  have hn0 : (0 : ℚ) < (n : ℚ) := by
    have : 0 < n := by omega
    exact_mod_cast this
  have hc1 : (c : ℚ) + 1 ≤ (n : ℚ) := by exact_mod_cast hcn
  have hn199 : (n : ℚ) ≤ 199 := by
    have : n ≤ 199 := by omega
    exact_mod_cast this
  unfold progressPct
  rw [round_eq]
  have hlt : (c : ℚ) / (n : ℚ) * 100 + 1 / 2 < 100 := by
    rw [div_mul_eq_mul_div, div_add' _ _ _ (ne_of_gt hn0), div_lt_iff hn0]
    nlinarith
  have := Int.floor_lt.mpr (by push_cast; linarith : (c : ℚ) / (n : ℚ) * 100 + 1 / 2 < ((100 : ℤ) : ℚ))
  exact this

/-- C8 (amended): over a batch run the emitted progress sequence is
monotonically non-decreasing and ends at 100%; and for batches of fewer
than 200 rows the value 100 appears only at the last row.  (For 200 or more
rows, rounding lets 100 appear before the last row; see the
counterexample.) -/
theorem progressBehavior_C8 (tiers : Tiers) (fetch : String → Option String)
    (ai : ℕ → Except String AIAnalysisResult) (rows : List InputRow) :
    (∀ i j (vi vj : ℤ), i ≤ j →
        (runBatch tiers fetch ai rows).progressLog.get? i = some vi →
        (runBatch tiers fetch ai rows).progressLog.get? j = some vj → vi ≤ vj) ∧
      (rows ≠ [] → (runBatch tiers fetch ai rows).progressLog.getLast? = some 100) ∧
      (rows.length < 200 → ∀ i (vi : ℤ),
        (runBatch tiers fetch ai rows).progressLog.get? i = some vi → vi = 100 →
        i = rows.length - 1) := by
  have hget : ∀ i (vi : ℤ),
      (runBatch tiers fetch ai rows).progressLog.get? i = some vi →
      i < rows.length ∧ vi = progressPct (i + 1) rows.length := by
    intro i vi hi
    rw [runBatch, processAll_progressLog, List.get?_map] at hi
    rcases hmem : (List.range rows.length).get? i with _ | a
    · rw [hmem] at hi
      simp at hi
    · rw [hmem] at hi
      have hlen : i < rows.length := by
        have := List.get?_eq_some.mp hmem
        obtain ⟨hw, _⟩ := this
        simpa using hw
      have ha : a = i := by
        rw [List.get?_eq_get (by simpa using hlen)] at hmem
        simp [List.get_range] at hmem
        omega
      subst ha
      simp only [Option.map_some', Option.some.injEq] at hi
      rw [Nat.zero_add] at hi
      exact ⟨hlen, hi.symm⟩
  refine ⟨?_, ?_, ?_⟩
  · intro i j vi vj hij hi hj
    obtain ⟨_, hvi⟩ := hget i vi hi
    obtain ⟨_, hvj⟩ := hget j vj hj
    rw [hvi, hvj]
    exact progressPct_mono rows.length (by omega)
  · intro hrows
    rw [runBatch, processAll_progressLog_getLast _ _ _ _ _ _ hrows, Nat.zero_add,
      progressPct_total _ (fun h => hrows (List.length_eq_zero.mp h))]
  · intro hlen i vi hi h100
    obtain ⟨hilen, hvi⟩ := hget i vi hi
    by_contra hne
    have hi1 : i + 1 < rows.length := by omega
    have := progressPct_lt_100 hi1 hlen
    omega

/-- Witness for `progressBehavior_C8`: a one-row batch ends at 100%. -/
theorem progressBehavior_C8_witness :
    (runBatch ⟨"", "", ""⟩ (fun _ => none) (fun _ => .ok ⟨8, 6, 7, "好"⟩)
        [{}]).progressLog.getLast? = some 100 :=
  (progressBehavior_C8 ⟨"", "", ""⟩ (fun _ => none) (fun _ => .ok ⟨8, 6, 7, "好"⟩)
    [{}]).2.1 (List.cons_ne_nil _ _)

/-- C8 counterexample: in a batch of 201 rows the progress value emitted
after the 200th row (index 199) is already `round(99.502...) = 100`, so
100% is reported before the last row, contradicting the claim as stated. -/
theorem progress_C8_counterexample :
    (runBatch ⟨"", "", ""⟩ (fun _ => none) (fun _ => .ok ⟨8, 6, 7, "好"⟩)
        (List.replicate 201 {})).progressLog.get? 199 = some 100 ∧
      (199 : ℕ) ≠ (List.replicate 201 ({} : InputRow)).length - 1 := by
  constructor
  · rw [runBatch, processAll_progressLog, List.length_replicate,
      List.get?_map, List.get?_range (by norm_num : (199 : ℕ) < 201)]
    simp only [Option.map_some', Option.some.injEq]
    show progressPct 200 201 = 100
    unfold progressPct
    rw [round_eq]
    have : ((200 : ℕ) : ℚ) / ((201 : ℕ) : ℚ) * 100 = 20000 / 201 := by norm_num
    rw [this]
    rw [show ((100 : ℤ)) = ((100 : ℤ)) from rfl]
    apply Int.floor_eq_iff.mpr
    constructor
    · push_cast
      norm_num
    · push_cast
      norm_num
  · rw [List.length_replicate]
    omega

/-- JS division of a sum by a list length: a zero denominator yields `NaN`
(here `none`), since the empty sum gives `0 / 0`. -/
noncomputable def jsDivLen (a : ℝ) (n : ℕ) : Option ℝ :=
  if n = 0 then none else some (a / (n : ℝ))

/-- The rubric average `avg` of `renderCharts` (part_000 lines 276-277),
also inlined for the metric cards (line 513): `reduce` the field values
with initial accumulator 0 (`parseFloat` of a stored numeric field returns
its value, and of a stored `toFixed(2)` string the value that string
denotes) and divide by `batchResults.length`, with no empty-set guard. -/
noncomputable def avgField (rs : List BatchResultRec) (f : BatchResultRec → ℝ) : Option ℝ :=
  jsDivLen ((rs.map f).sum) rs.length

/-- The radar-chart data points (part_000 lines 279-281).  The outer
`Option` is the `batchResults &&` null guard of line 270: for `none` (null)
the charts are not drawn at all; an inner `none` entry is a `NaN` data
point handed to the chart. -/
noncomputable def radarData (br : Option (List BatchResultRec)) : Option (List (Option ℝ)) :=
  br.map (fun rs =>
    [avgField rs BatchResultRec.kmScore, avgField rs BatchResultRec.acquisition,
      avgField rs BatchResultRec.audPrecision, avgField rs BatchResultRec.mediaTier,
      avgField rs BatchResultRec.commQuality])

/-- C9 counterexample: an empty (but non-null) result list passes the null
guard, and every rubric average evaluates `0 / 0`, so the chart receives
five `NaN` data points — the empty result set is not treated as "no data"
and an invalid value is produced. -/
theorem avgGuard_C9_counterexample :
    radarData (some []) = some [none, none, none, none, none] ∧
      radarData (some []) ≠ none := by
  exact ⟨rfl, by simp [radarData]⟩

/-- C9 (amended): only the absent (null) result set is guarded and treated
as "no data" (no charts drawn); an empty result list reaches the division,
which evaluates `0 / 0` and yields `NaN` for every average; for a nonempty
result list the average is the arithmetic mean of the field. -/
theorem avgGuard_C9_amended :
    radarData none = none ∧
      radarData (some []) = some (List.replicate 5 none) ∧
      (∀ rs (f : BatchResultRec → ℝ), rs ≠ [] →
        avgField rs f = some ((rs.map f).sum / (rs.length : ℝ))) := by
  refine ⟨rfl, rfl, ?_⟩
  intro rs f hrs
  rw [avgField, jsDivLen, if_neg (fun h => hrs (List.length_eq_zero.mp h))]

/-- Witness for `avgGuard_C9_amended` on a one-record result list. -/
theorem avgGuard_C9_witness :
    avgField [⟨"t", "m", 7, 7, 6, 7, 8, 7, 10, 5, "c"⟩] BatchResultRec.kmScore
      = some ((([⟨"t", "m", 7, 7, 6, 7, 8, 7, 10, 5, "c"⟩] :
          List BatchResultRec).map BatchResultRec.kmScore).sum
        / (([⟨"t", "m", 7, 7, 6, 7, 8, 7, 10, 5, "c"⟩] :
          List BatchResultRec).length : ℝ)) :=
  avgGuard_C9_amended.2.2 _ _ (List.cons_ne_nil _ _)

/-- Every row's AI call is invoked, since the guard always holds. -/
theorem processRow_invoked (tiers : Tiers) (fetch : String → Option String)
    (a : Except String AIAnalysisResult) (row : InputRow) :
    (processRow tiers fetch a row).2 = true := by
  simp only [processRow,
    scoreStep_of_mediaName_ne _ _ (resolveMediaName_ne_empty row)]
  cases a <;> rfl

/-- No record produced by the batch loop carries the floor placeholder
comment, provided the AI's own successful comments differ from it. -/
theorem processAll_comments (tiers : Tiers) (fetch : String → Option String)
    (ai : ℕ → Except String AIAnalysisResult) (total : ℕ) (rows : List InputRow)
    (hai : ∀ j r, ai j = .ok r → r.comment ≠ "待评估") :
    ∀ i rec, rec ∈ (processAll tiers fetch ai total i rows).results →
      rec.comment ≠ "待评估" := by
  induction rows with
  | nil =>
    intro i rec h
    simp [processAll] at h
  | cons row rest ih =>
    intro i rec h
    simp only [processAll, List.mem_cons] at h
    rcases h with h | h
    · subst h
      cases hcase : ai i with
      | ok r =>
        have hc : (processRow tiers fetch (.ok r) row).1.comment = r.comment := by
          simp only [processRow,
            scoreStep_of_mediaName_ne _ _ (resolveMediaName_ne_empty row)]
          rfl
        rw [hc]
        exact hai i r hcase
      | error msg =>
        rw [(processRow_error tiers fetch msg row).1]
        exact failureComment_ne_floor msg
    · exact ih (i + 1) rec h

/-- C10: the extracted media name of every row is nonempty (falling back to
the constant 未知), so the "content or media name nonempty" guard holds for
every row, the AI scorer is invoked for every row (the skip-with-floor
branch is unreachable in the batch pipeline), and — as long as the AI's own
successful comments are not the placeholder text — the floor comment 待评估
never appears in any produced result record (on failure the comment is the
failure marker, while the floor sub-scores are preserved). -/
theorem impliedInvariants_C10 :
    (∀ row : InputRow, resolveMediaName row ≠ "") ∧
      (∀ (fetch : String → Option String) (row : InputRow),
        (resolveContent fetch row != "" || resolveMediaName row != "") = true) ∧
      (∀ (tiers : Tiers) (fetch : String → Option String)
        (ai : ℕ → Except String AIAnalysisResult) (rows : List InputRow) (j : ℕ),
        (runBatch tiers fetch ai rows).invoked.get? j
          = (rows.get? j).map (fun _ => true)) ∧
      (∀ (tiers : Tiers) (fetch : String → Option String)
        (ai : ℕ → Except String AIAnalysisResult) (rows : List InputRow),
        (∀ j r, ai j = .ok r → r.comment ≠ "待评估") →
        ((runBatch tiers fetch ai rows).results.all
          (fun rec => rec.comment != "待评估")) = true) := by
  refine ⟨resolveMediaName_ne_empty, ?_, ?_, ?_⟩
  · intro fetch row
    have := resolveMediaName_ne_empty row
    simp [bne_iff_ne, this]
  · intro tiers fetch ai rows j
    rw [runBatch, processAll_invoked_get?]
    cases hrow : rows.get? j with
    | none => rfl
    | some row =>
      simp [processRow_invoked]
  · intro tiers fetch ai rows hai
    rw [List.all_eq_true]
    intro rec hrec
    rw [bne_iff_ne]
    exact processAll_comments tiers fetch ai rows.length rows hai 0 rec hrec

/-- Witness for `impliedInvariants_C10` on a one-row batch with a concrete
successful AI outcome. -/
theorem impliedInvariants_C10_witness :
    ((runBatch ⟨"", "", ""⟩ (fun _ => none) (fun _ => .ok ⟨8, 6, 7, "可"⟩)
        [{}]).results.all (fun rec => rec.comment != "待评估")) = true :=
  impliedInvariants_C10.2.2.2 ⟨"", "", ""⟩ (fun _ => none)
    (fun _ => .ok ⟨8, 6, 7, "可"⟩) [{}]
    (fun j r h => by
      cases h
      decide)
